import Mathlib

/-!
Shallow embedding of the compliance-analysis core of `mp4convertor`
(`src/lib.rs`): the `ComplianceEngine`, the content classifier, the
remediation argument generators, the batch/summary aggregators and the
duration formatter, together with theorems settling the specification
claims about them.

Modelling conventions:
* Rust `String` is Lean `String`; `str::contains` (substring search) and
  `str::to_lowercase` (ASCII case folding, which is all the catalog terms
  and comparisons exercise) are defined below from first principles.
* Rust `u8`/`u32`/`usize` counters are `Nat`; `score` starts at 100 and
  only ever shrinks by `saturating_sub`, which on these ranges coincides
  with truncated `Nat` subtraction.
* Rust `f64` fields (`fps`, `duration`, `average_score`) are `Rat`; every
  comparison and arithmetic step the claims exercise is exact at the
  values involved.
* `Vec::push` is append at the right end; `Result<T, E>` is `Except E T`.
-/

/-- ASCII lower-casing of one character, as `str::to_lowercase` acts on
the ASCII range used by the catalog terms. -/
def lowChar (c : Char) : Char :=
  if 65 ≤ c.toNat ∧ c.toNat ≤ 90 then Char.ofNat (c.toNat + 32) else c

/-- `String::to_lowercase` (ASCII range). -/
def lowStr (s : String) : String := ⟨s.data.map lowChar⟩

/-- Does `hay` begin with `needle`? (helper for substring search). -/
def beginsWith : List Char → List Char → Bool
  | [], _ => true
  | _ :: _, [] => false
  | a :: as, b :: bs => a == b && beginsWith as bs

/-- Does `hay` contain `needle` as a contiguous sublist? -/
def containsSub : List Char → List Char → Bool
  | [], needle => beginsWith needle []
  | h :: t, needle => beginsWith needle (h :: t) || containsSub t needle

/-- `str::contains` : substring containment. -/
def strContainsSub (hay needle : String) : Bool :=
  containsSub hay.data needle.data

/-- `Vec::<String>::join(sep)`. -/
def joinSep (sep : String) : List String → String
  | [] => ""
  | [a] => a
  | a :: b :: rest => a ++ sep ++ joinSep sep (b :: rest)

/-! ## Data model (`src/lib.rs`) -/

/-- `BitRateRange` (src/lib.rs). -/
structure BitRateRange where
  min_kbps : Nat
  max_kbps : Nat
  content_type : String
deriving Repr, DecidableEq

/-- `VideoStandards` (src/lib.rs); the `HashMap` of bitrate ranges is an
association list. -/
structure VideoStandards where
  preferred_resolutions : List String
  acceptable_resolutions : List String
  preferred_codecs : List String
  preferred_frame_rates : List Rat
  bitrate_ranges : List (String × BitRateRange)
  containers : List String
  unsupported_containers : List String
  profiles : List String
deriving Repr

/-- `AudioStandards` (src/lib.rs). -/
structure AudioStandards where
  preferred_codecs : List String
  acceptable_codecs : List String
  sample_rates : List Nat
  bit_depths : List Nat
  bitrate_ranges : List (String × Nat)
  channels : List String
deriving Repr

/-- `QualityStandards` (src/lib.rs). -/
structure QualityStandards where
  color_spaces : List String
  unsupported_color_spaces : List String
  keyframe_interval_min : Nat
  chroma_subsampling : List String
  hdr_restrictions : List String
deriving Repr

/-- `ContentStandards` (src/lib.rs). -/
structure ContentStandards where
  video : VideoStandards
  audio : AudioStandards
  quality : QualityStandards
deriving Repr

/-- `VideoMetadata` (src/lib.rs). -/
structure VideoMetadata where
  codec : String
  resolution : String
  duration : Rat
  bitrate : Nat
  size : Nat
  fps : Rat
  audio_codec : String
  audio_sample_rate : Nat
  audio_bitrate : Nat
  container : String
  profile : String
  color_space : String
deriving Repr

/-- `ViolationSeverity` (src/lib.rs). -/
inductive ViolationSeverity where
  | Critical
  | Warning
  | Info
deriving Repr, DecidableEq

/-- `ViolationCategory` (src/lib.rs): all ten variants, including the
`ColorSpace` variant that the engine itself never emits. -/
inductive ViolationCategory where
  | VideoCodec
  | AudioCodec
  | Resolution
  | FrameRate
  | Bitrate
  | Container
  | ColorSpace
  | HDR
  | Profile
  | Audio
deriving Repr, DecidableEq

/-- `ComplianceViolation` (src/lib.rs). -/
structure ComplianceViolation where
  severity : ViolationSeverity
  category : ViolationCategory
  description : String
  current_value : String
  expected_value : String
deriving Repr, DecidableEq

/-- `ComplianceResult` (src/lib.rs); `score : u8` modelled as `Nat`. -/
structure ComplianceResult where
  is_compliant : Bool
  score : Nat
  violations : List ComplianceViolation
  recommendations : List String
deriving Repr

/-- `ContentStandards::load_default` (src/lib.rs): the concrete default
catalog the engine is constructed with. -/
def defaultStandards : ContentStandards :=
  { video :=
      { preferred_resolutions := ["1280x720", "1920x1080", "720x1280", "1080x1920"]
        acceptable_resolutions :=
          ["1360x768", "1280x800", "1600x900", "1440x900", "1680x1048",
           "1440x810", "2160x3840"]
        preferred_codecs := ["h264", "libx264"]
        preferred_frame_rates := [15, 23976/1000, 24, 25, 2997/100, 30]
        bitrate_ranges :=
          [("screen_capture", ⟨6000, 8000, "Screen Capture"⟩),
           ("live_action", ⟨8000, 15000, "Live Action"⟩)]
        containers := ["mp4", "mov"]
        unsupported_containers := ["mkv"]
        profiles := ["main", "high"] }
    audio :=
      { preferred_codecs := ["pcm", "alac"]
        acceptable_codecs := ["aac"]
        sample_rates := [44100, 48000]
        bit_depths := [16, 24]
        bitrate_ranges := [("aac", 320)]
        channels := ["stereo", "2.0"] }
    quality :=
      { color_spaces := ["rec709", "bt709"]
        unsupported_color_spaces := ["bt2020", "dci-p3", "rec2020"]
        keyframe_interval_min := 2
        chroma_subsampling := ["4:2:0", "4:2:2"]
        hdr_restrictions := ["hdr10", "hdr10+", "dolby_vision", "hlg"] } }

/-! ## `ComplianceEngine::analyze_compliance`, staged exactly as the
source mutates `(violations, recommendations, score)` rule by rule. -/

/-- Mutable local state of `analyze_compliance`. -/
structure AnalysisState where
  violations : List ComplianceViolation
  recommendations : List String
  score : Nat
deriving Repr

/-- Initial state: empty vecs, `score = 100u8`. -/
def initState : AnalysisState := ⟨[], [], 100⟩

/-- Rule 1 (video codec), src/lib.rs lines 125-141. -/
def checkVideoCodec (std : ContentStandards) (md : VideoMetadata)
    (s : AnalysisState) : AnalysisState :=
  if ¬ md.codec ∈ std.video.preferred_codecs then
    { violations := s.violations ++
        [⟨ViolationSeverity.Critical, ViolationCategory.VideoCodec,
          "Video codec not in preferred list", md.codec,
          joinSep ", " std.video.preferred_codecs⟩]
      recommendations := s.recommendations ++
        ["Convert to H.264 codec for optimal compatibility"]
      score := s.score - 20 }
  else s

/-- Rule 2 (resolution), src/lib.rs lines 143-181. -/
def checkResolution (std : ContentStandards) (md : VideoMetadata)
    (s : AnalysisState) : AnalysisState :=
  if ¬ md.resolution ∈ std.video.preferred_resolutions ∧
     ¬ md.resolution ∈ std.video.acceptable_resolutions then
    { violations := s.violations ++
        [⟨ViolationSeverity.Critical, ViolationCategory.Resolution,
          "Resolution not supported", md.resolution,
          "Preferred: " ++ joinSep ", " std.video.preferred_resolutions⟩]
      recommendations := s.recommendations ++
        ["Resize to 1920x1080 or 1280x720 for standard content"]
      score := s.score - 25 }
  else if ¬ md.resolution ∈ std.video.preferred_resolutions then
    { violations := s.violations ++
        [⟨ViolationSeverity.Warning, ViolationCategory.Resolution,
          "Resolution acceptable but not preferred", md.resolution,
          "Preferred: " ++ joinSep ", " std.video.preferred_resolutions⟩]
      recommendations := s.recommendations
      score := s.score - 10 }
  else s

/-- Rule 3 (container), src/lib.rs lines 183-199. -/
def checkContainer (std : ContentStandards) (md : VideoMetadata)
    (s : AnalysisState) : AnalysisState :=
  if lowStr md.container ∈ std.video.unsupported_containers then
    { violations := s.violations ++
        [⟨ViolationSeverity.Critical, ViolationCategory.Container,
          "Container format not supported", md.container,
          joinSep ", " std.video.containers⟩]
      recommendations := s.recommendations ++
        ["Convert to MP4 or MOV container"]
      score := s.score - 15 }
  else s

/-- Rule 4 (audio codec), src/lib.rs lines 201-243. -/
def checkAudioCodec (std : ContentStandards) (md : VideoMetadata)
    (s : AnalysisState) : AnalysisState :=
  if ¬ md.audio_codec ∈ std.audio.preferred_codecs ∧
     ¬ md.audio_codec ∈ std.audio.acceptable_codecs then
    { violations := s.violations ++
        [⟨ViolationSeverity.Warning, ViolationCategory.AudioCodec,
          "Audio codec not in preferred or acceptable list", md.audio_codec,
          "Preferred: " ++ joinSep ", " std.audio.preferred_codecs ++
            " | Acceptable: " ++ joinSep ", " std.audio.acceptable_codecs⟩]
      recommendations := s.recommendations ++
        ["Convert audio to PCM or ALAC for highest quality"]
      score := s.score - 15 }
  else if md.audio_codec ∈ std.audio.acceptable_codecs then
    { violations := s.violations ++
        [⟨ViolationSeverity.Info, ViolationCategory.AudioCodec,
          "Audio codec is acceptable but not preferred", md.audio_codec,
          "Preferred: " ++ joinSep ", " std.audio.preferred_codecs⟩]
      recommendations := s.recommendations
      score := s.score - 5 }
  else s

/-- The case-insensitive substring test both color-space loops apply:
`metadata.color_space.to_lowercase().contains(&term.to_lowercase())`. -/
def colorMatch (cs term : String) : Bool :=
  strContainsSub (lowStr cs) (lowStr term)

/-- Rule 5 (HDR restrictions, then — only if none matched — unsupported
color spaces), src/lib.rs lines 245-288.  Each Rust loop pushes at the
first match and breaks, which is `List.find?`. -/
def checkColorSpace (std : ContentStandards) (md : VideoMetadata)
    (s : AnalysisState) : AnalysisState :=
  match std.quality.hdr_restrictions.find? (fun t => colorMatch md.color_space t) with
  | some _ =>
    { violations := s.violations ++
        [⟨ViolationSeverity.Critical, ViolationCategory.HDR,
          "HDR content not supported by delivery pipeline", md.color_space,
          "Rec. 709 (SDR)"⟩]
      recommendations := s.recommendations ++
        ["Convert to SDR (Rec. 709) color space"]
      score := s.score - 30 }
  | none =>
    match std.quality.unsupported_color_spaces.find?
        (fun t => colorMatch md.color_space t) with
    | some _ =>
      { violations := s.violations ++
          [⟨ViolationSeverity.Critical, ViolationCategory.HDR,
            "Color space not supported by delivery pipeline", md.color_space,
            "Rec. 709 (SDR)"⟩]
        recommendations := s.recommendations ++
          ["Convert to SDR (Rec. 709) color space"]
        score := s.score - 25 }
    | none => s

/-- The state after rules 1-4, before the color-space/HDR stage. -/
def preColorState (std : ContentStandards) (md : VideoMetadata) : AnalysisState :=
  checkAudioCodec std md (checkContainer std md
    (checkResolution std md (checkVideoCodec std md initState)))

/-- `matches!(v.severity, ViolationSeverity::Info)`. -/
def isInfo (v : ComplianceViolation) : Bool :=
  match v.severity with
  | ViolationSeverity.Info => true
  | _ => false

/-- `ComplianceEngine::analyze_compliance` (src/lib.rs lines 118-300). -/
def analyze_compliance (std : ContentStandards) (md : VideoMetadata) :
    ComplianceResult :=
  let s := checkColorSpace std md (preColorState std md)
  { is_compliant := s.violations.all isInfo
    score := s.score
    violations := s.violations
    recommendations := s.recommendations }

/-! ## Content classifier (`detect_content_type`, src/lib.rs 1107-1143) -/

/-- `ContentType` (src/lib.rs). -/
inductive ContentType where
  | ScreenCapture
  | LiveAction
  | Animation
  | Presentation
  | Unknown
deriving Repr, DecidableEq

/-- `detect_content_type` (src/lib.rs 1107-1143).  The Rust function
takes a `&Path` and lower-cases its final component; here the final
component is passed as `file_name`. -/
def detect_content_type (metadata : VideoMetadata) (file_name : String) :
    ContentType :=
  let filename := lowStr file_name
  if strContainsSub filename "screen" || strContainsSub filename "capture" ||
     strContainsSub filename "recording" then
    ContentType.ScreenCapture
  else if strContainsSub filename "presentation" || strContainsSub filename "slide" ||
     strContainsSub filename "demo" then
    ContentType.Presentation
  else if strContainsSub filename "cartoon" || strContainsSub filename "animated" ||
     strContainsSub filename "anime" then
    ContentType.Animation
  else if metadata.fps > 50 then
    ContentType.LiveAction
  else if metadata.fps < 20 then
    ContentType.ScreenCapture
  else if strContainsSub metadata.resolution "1920x1080" &&
      decide (metadata.fps ≥ 24) && decide (metadata.fps ≤ 30) then
    ContentType.LiveAction
  else
    ContentType.ScreenCapture

/-- Modelled from the spec's words (classifier cascade, spec §4.2): the
7-rule ordered cascade exactly as the specification states it, in which
rule 6 requires the resolution to be **exactly** `"1920x1080"`.  Used
only to compare the specification's cascade with the source's
`detect_content_type`. -/
def specClassifyCascade (metadata : VideoMetadata) (file_name : String) :
    ContentType :=
  let filename := lowStr file_name
  if strContainsSub filename "screen" || strContainsSub filename "capture" ||
     strContainsSub filename "recording" then
    ContentType.ScreenCapture
  else if strContainsSub filename "presentation" || strContainsSub filename "slide" ||
     strContainsSub filename "demo" then
    ContentType.Presentation
  else if strContainsSub filename "cartoon" || strContainsSub filename "animated" ||
     strContainsSub filename "anime" then
    ContentType.Animation
  else if metadata.fps > 50 then
    ContentType.LiveAction
  else if metadata.fps < 20 then
    ContentType.ScreenCapture
  else if metadata.resolution = "1920x1080" ∧ 24 ≤ metadata.fps ∧ metadata.fps ≤ 30 then
    ContentType.LiveAction
  else
    ContentType.ScreenCapture

/-- The spec cascade amended at rule 6 only: resolution matches by
substring containment (as the source does) instead of exact equality. -/
def specClassifyCascadeAmended (metadata : VideoMetadata) (file_name : String) :
    ContentType :=
  let filename := lowStr file_name
  if strContainsSub filename "screen" || strContainsSub filename "capture" ||
     strContainsSub filename "recording" then
    ContentType.ScreenCapture
  else if strContainsSub filename "presentation" || strContainsSub filename "slide" ||
     strContainsSub filename "demo" then
    ContentType.Presentation
  else if strContainsSub filename "cartoon" || strContainsSub filename "animated" ||
     strContainsSub filename "anime" then
    ContentType.Animation
  else if metadata.fps > 50 then
    ContentType.LiveAction
  else if metadata.fps < 20 then
    ContentType.ScreenCapture
  else if strContainsSub metadata.resolution "1920x1080" ∧
      24 ≤ metadata.fps ∧ metadata.fps ≤ 30 then
    ContentType.LiveAction
  else
    ContentType.ScreenCapture

/-! ## Remediation argument generators (src/lib.rs 936-1052, 1261-1365) -/

/-- `should_use_hw_decode` (src/lib.rs 936-944). -/
def should_use_hw_decode (r : ComplianceResult) : Bool :=
  decide (r.violations.length > 2) ||
    r.violations.any (fun v =>
      decide (v.category = ViolationCategory.Resolution ∨
              v.category = ViolationCategory.ColorSpace ∨
              v.category = ViolationCategory.HDR))

/-- Loop body of `determine_target_resolution` (src/lib.rs 1037-1052):
the first `Resolution` violation whose expected value names a known
target wins; the final default is `1920:1080`. -/
def detTargetRes : List ComplianceViolation → Option String
  | [] => some "1920:1080"
  | v :: rest =>
    if v.category = ViolationCategory.Resolution then
      if strContainsSub v.expected_value "1920x1080" then some "1920:1080"
      else if strContainsSub v.expected_value "1280x720" then some "1280:720"
      else detTargetRes rest
    else detTargetRes rest

/-- `determine_target_resolution` (src/lib.rs 1037-1052). -/
def determine_target_resolution (r : ComplianceResult) : Option String :=
  detTargetRes r.violations

/-- Predicate for a violation requiring video re-encoding (shared by
`generate_video_fixes` and `generate_optimized_video_fixes`). -/
def isVideoFixCat (v : ComplianceViolation) : Bool :=
  decide (v.category = ViolationCategory.VideoCodec ∨
          v.category = ViolationCategory.Resolution ∨
          v.category = ViolationCategory.ColorSpace ∨
          v.category = ViolationCategory.HDR)

/-- `generate_video_fixes` (src/lib.rs 947-1008). -/
def generate_video_fixes (r : ComplianceResult) : List String :=
  let needs_codec_fix := r.violations.any (fun v =>
    decide (v.category = ViolationCategory.VideoCodec))
  let needs_resolution_fix := r.violations.any (fun v =>
    decide (v.category = ViolationCategory.Resolution))
  let needs_quality_fix := r.violations.any (fun v =>
    decide (v.category = ViolationCategory.ColorSpace ∨
            v.category = ViolationCategory.HDR))
  if needs_codec_fix || needs_resolution_fix || needs_quality_fix then
    ["-c:v", "h264_nvenc", "-preset", "p7", "-cq", "18",
     "-profile:v", "high", "-pix_fmt", "yuv420p"] ++
    (if needs_resolution_fix then
      match determine_target_resolution r with
      | some res => ["-vf", "scale=" ++ res]
      | none => []
    else []) ++
    (if needs_quality_fix then
      ["-colorspace", "bt709", "-color_primaries", "bt709",
       "-color_trc", "bt709"]
    else [])
  else
    ["-c:v", "copy"]

/-- The content-specific argument block of `generate_optimized_video_fixes`
(src/lib.rs 1287-1334). -/
def contentTypeArgs : ContentType → List String
  | ContentType.ScreenCapture =>
      ["-preset", "p7", "-cq", "15", "-temporal-aq", "1", "-rc-lookahead", "32"]
  | ContentType.Presentation =>
      ["-preset", "p7", "-cq", "15", "-temporal-aq", "1", "-rc-lookahead", "32"]
  | ContentType.LiveAction =>
      ["-preset", "p5", "-cq", "18", "-spatial-aq", "1", "-temporal-aq", "1"]
  | ContentType.Animation =>
      ["-preset", "p6", "-cq", "16", "-aq-mode", "3"]
  | ContentType.Unknown =>
      ["-preset", "p6", "-cq", "18"]

/-- `generate_optimized_video_fixes` (src/lib.rs 1261-1365); the
`_metadata` argument of the Rust function is unused there and omitted. -/
def generate_optimized_video_fixes (r : ComplianceResult)
    (content_type : ContentType) : List String :=
  let needs_video_fix := r.violations.any isVideoFixCat
  if needs_video_fix then
    ["-c:v", "h264_nvenc", "-profile:v", "high", "-pix_fmt", "yuv420p"] ++
    contentTypeArgs content_type ++
    (if r.violations.any (fun v => decide (v.category = ViolationCategory.Resolution)) then
      match determine_target_resolution r with
      | some target_res => ["-vf", "scale=" ++ target_res]
      | none => []
    else []) ++
    (if r.violations.any (fun v =>
        decide (v.category = ViolationCategory.ColorSpace ∨
                v.category = ViolationCategory.HDR)) then
      ["-colorspace", "bt709", "-color_primaries", "bt709",
       "-color_trc", "bt709"]
    else [])
  else
    ["-c:v", "copy"]

/-! ## Aggregators (`ComplianceSummary`, `BatchProcessor`) -/

/-- `ComplianceSummary` (src/lib.rs 1636-1646); `average_score : f64`
modelled as `Rat`. -/
structure ComplianceSummary where
  total_files : Nat
  compliant_files : Nat
  non_compliant_files : Nat
  average_score : Rat
  critical_violations : Nat
  warning_violations : Nat
  info_violations : Nat
  files_by_score : List (String × Nat)
deriving Repr

/-- `ComplianceSummary::new` (`Default::default`). -/
def ComplianceSummary.new : ComplianceSummary :=
  ⟨0, 0, 0, 0, 0, 0, 0, []⟩

/-- Severity tallying loop of `add_result` (src/lib.rs 1667-1673). -/
def tallySeverities (vs : List ComplianceViolation) (c w i : Nat) : Nat × Nat × Nat :=
  match vs with
  | [] => (c, w, i)
  | v :: rest =>
    match v.severity with
    | ViolationSeverity.Critical => tallySeverities rest (c + 1) w i
    | ViolationSeverity.Warning => tallySeverities rest c (w + 1) i
    | ViolationSeverity.Info => tallySeverities rest c w (i + 1)

/-- `ComplianceSummary::add_result` (src/lib.rs 1653-1674).  The running
mean is updated exactly as in the source: the count is incremented first
and then `average_score = (average_score * (total_files - 1) + score) /
total_files` (the `- 1` is the source's `usize` subtraction, modelled by
truncated `Nat` subtraction before the cast). -/
def ComplianceSummary.add_result (s : ComplianceSummary)
    (result : ComplianceResult) (filename : String) : ComplianceSummary :=
  let total := s.total_files + 1
  let avg : Rat :=
    (s.average_score * (((total - 1 : Nat) : Rat)) + (result.score : Rat)) /
      ((total : Nat) : Rat)
  let tally := tallySeverities result.violations
    s.critical_violations s.warning_violations s.info_violations
  { total_files := total
    compliant_files := if result.is_compliant then s.compliant_files + 1 else s.compliant_files
    non_compliant_files := if result.is_compliant then s.non_compliant_files else s.non_compliant_files + 1
    average_score := avg
    critical_violations := tally.1
    warning_violations := tally.2.1
    info_violations := tally.2.2
    files_by_score := s.files_by_score ++ [(filename, result.score)] }

/-- `VideoError` (src/lib.rs 366-386), payloads rendered as strings. -/
inductive VideoError where
  | io : String → VideoError
  | ffmpeg : String → VideoError
  | invalidPath : String → VideoError
  | noVideosFound : VideoError
  | hwAccel : String → VideoError
  | compliance : String → VideoError
  | standards : String → VideoError
  | googleDrive : String → VideoError
  | auth : String → VideoError
deriving Repr, DecidableEq

/-- `VideoError`'s `Display` rendering (the `#[error(...)]` formats). -/
def VideoError.render : VideoError → String
  | VideoError.io s => "IO error: " ++ s
  | VideoError.ffmpeg s => "FFmpeg error: " ++ s
  | VideoError.invalidPath s => "Invalid path: " ++ s
  | VideoError.noVideosFound => "No video files found in directory"
  | VideoError.hwAccel s => "Hardware acceleration error: " ++ s
  | VideoError.compliance s => "Compliance error: " ++ s
  | VideoError.standards s => "Standards parsing error: " ++ s
  | VideoError.googleDrive s => "Google Drive error: " ++ s
  | VideoError.auth s => "Authentication error: " ++ s

/-- `BatchProcessor` (src/lib.rs 1368-1374); `PathBuf` modelled as
`String`. -/
structure BatchProcessor where
  total_files : Nat
  processed_files : Nat
  failed_files : List (String × String)
  fixed_files : List String
  skipped_files : List String
deriving Repr

/-- `BatchProcessor::new` (src/lib.rs 1377-1385). -/
def BatchProcessor.new (total_files : Nat) : BatchProcessor :=
  ⟨total_files, 0, [], [], []⟩

/-- `BatchProcessor::process_file_result` (src/lib.rs 1387-1405). -/
def BatchProcessor.process_file_result (bp : BatchProcessor) (path : String)
    (result : Except VideoError (Option String)) : BatchProcessor :=
  let bp := { bp with processed_files := bp.processed_files + 1 }
  match result with
  | Except.ok (some fixed_path) =>
      { bp with fixed_files := bp.fixed_files ++ [fixed_path] }
  | Except.ok none =>
      { bp with skipped_files := bp.skipped_files ++ [path] }
  | Except.error e =>
      { bp with failed_files := bp.failed_files ++ [(path, e.render)] }

/-! ## `format_duration` (src/lib.rs 561-569) -/

/-- Rust `f64::trunc` on a rational: truncation toward zero.  For a
reduced `Rat`, `Int.div num den` is exactly T-division. -/
def ratTrunc (q : Rat) : Int := Int.tdiv q.num (q.den : Int)

/-- Rust `as u32` float-to-integer cast: saturating into `[0, 2^32-1]`. -/
def castU32 (i : Int) : Nat := min i.toNat 4294967295

/-- Zero-padded two-digit rendering, Rust `format!` with width `02`
(values of 100 or more keep all their digits). -/
def pad2 (n : Nat) : String :=
  if n < 10 then "0" ++ toString n else toString n

/-- `format_duration` (src/lib.rs 561-569): truncate to whole
centiseconds, then split into `HH:MM:SS.cc`. -/
def format_duration (seconds : Rat) : String :=
  let total_centisecs : Nat := castU32 (ratTrunc (seconds * 100))
  let hours := total_centisecs / 360000
  let minutes := (total_centisecs % 360000) / 6000
  let secs := (total_centisecs % 6000) / 100
  let centisecs := total_centisecs % 100
  pad2 hours ++ ":" ++ pad2 minutes ++ ":" ++ pad2 secs ++ "." ++ pad2 centisecs

/-! ## Concrete inputs used by witnesses and counterexamples -/

/-- A fully compliant metadata sample (spec §8, first property). -/
def goodMd : VideoMetadata :=
  ⟨"h264", "1920x1080", 10, 1000000, 5000000, 30, "pcm", 48000, 320000,
   "mp4", "high", "rec709"⟩

/-- Metadata whose resolution string strictly contains `"1920x1080"`
without being equal to it. -/
def cexMd : VideoMetadata :=
  ⟨"h264", "11920x1080", 10, 1000000, 5000000, 25, "pcm", 48000, 320000,
   "mp4", "high", "rec709"⟩

/-- Metadata whose color space matches both an HDR-restriction term and
an unsupported-color-space term of the default catalog. -/
def hdrBothMd : VideoMetadata :=
  ⟨"h264", "1920x1080", 10, 1000000, 5000000, 30, "pcm", 48000, 320000,
   "mp4", "high", "hdr10 bt2020"⟩

/-- 60 fps metadata for the classifier-priority example. -/
def screenRec60Md : VideoMetadata :=
  ⟨"h264", "1920x1080", 10, 1000000, 5000000, 60, "pcm", 48000, 320000,
   "mp4", "high", "rec709"⟩

/-! ## Stage lemmas for the compliance engine -/

theorem checkVideoCodec_score_le (std : ContentStandards) (md : VideoMetadata)
    (s : AnalysisState) : (checkVideoCodec std md s).score ≤ s.score := by
  unfold checkVideoCodec
  split <;> simp [Nat.sub_le]

theorem checkResolution_score_le (std : ContentStandards) (md : VideoMetadata)
    (s : AnalysisState) : (checkResolution std md s).score ≤ s.score := by
  unfold checkResolution
  split <;> [skip; split] <;> simp [Nat.sub_le]

theorem checkContainer_score_le (std : ContentStandards) (md : VideoMetadata)
    (s : AnalysisState) : (checkContainer std md s).score ≤ s.score := by
  unfold checkContainer
  split <;> simp [Nat.sub_le]

theorem checkAudioCodec_score_le (std : ContentStandards) (md : VideoMetadata)
    (s : AnalysisState) : (checkAudioCodec std md s).score ≤ s.score := by
  unfold checkAudioCodec
  split <;> [skip; split] <;> simp [Nat.sub_le]

theorem checkColorSpace_score_le (std : ContentStandards) (md : VideoMetadata)
    (s : AnalysisState) : (checkColorSpace std md s).score ≤ s.score := by
  unfold checkColorSpace
  split <;> [simp [Nat.sub_le]; split <;> simp [Nat.sub_le]]

theorem mem_violations_checkVideoCodec (std : ContentStandards)
    (md : VideoMetadata) (s : AnalysisState) (v : ComplianceViolation) :
    v ∈ (checkVideoCodec std md s).violations →
      v ∈ s.violations ∨ v.category = ViolationCategory.VideoCodec := by
  unfold checkVideoCodec
  split <;> intro h
  · rcases List.mem_append.mp h with h | h
    · exact Or.inl h
    · right
      simp only [List.mem_singleton] at h
      rw [h]
  · exact Or.inl h

theorem mem_violations_checkResolution (std : ContentStandards)
    (md : VideoMetadata) (s : AnalysisState) (v : ComplianceViolation) :
    v ∈ (checkResolution std md s).violations →
      v ∈ s.violations ∨ v.category = ViolationCategory.Resolution := by
  unfold checkResolution
  split <;> [skip; split] <;> intro h
  · rcases List.mem_append.mp h with h | h
    · exact Or.inl h
    · right; simp only [List.mem_singleton] at h; rw [h]
  · rcases List.mem_append.mp h with h | h
    · exact Or.inl h
    · right; simp only [List.mem_singleton] at h; rw [h]
  · exact Or.inl h

theorem mem_violations_checkContainer (std : ContentStandards)
    (md : VideoMetadata) (s : AnalysisState) (v : ComplianceViolation) :
    v ∈ (checkContainer std md s).violations →
      v ∈ s.violations ∨ v.category = ViolationCategory.Container := by
  unfold checkContainer
  split <;> intro h
  · rcases List.mem_append.mp h with h | h
    · exact Or.inl h
    · right; simp only [List.mem_singleton] at h; rw [h]
  · exact Or.inl h

theorem mem_violations_checkAudioCodec (std : ContentStandards)
    (md : VideoMetadata) (s : AnalysisState) (v : ComplianceViolation) :
    v ∈ (checkAudioCodec std md s).violations →
      v ∈ s.violations ∨ v.category = ViolationCategory.AudioCodec := by
  unfold checkAudioCodec
  split <;> [skip; split] <;> intro h
  · rcases List.mem_append.mp h with h | h
    · exact Or.inl h
    · right; simp only [List.mem_singleton] at h; rw [h]
  · rcases List.mem_append.mp h with h | h
    · exact Or.inl h
    · right; simp only [List.mem_singleton] at h; rw [h]
  · exact Or.inl h

theorem mem_violations_checkColorSpace (std : ContentStandards)
    (md : VideoMetadata) (s : AnalysisState) (v : ComplianceViolation) :
    v ∈ (checkColorSpace std md s).violations →
      v ∈ s.violations ∨ v.category = ViolationCategory.HDR := by
  unfold checkColorSpace
  split <;> [skip; split] <;> intro h
  · rcases List.mem_append.mp h with h | h
    · exact Or.inl h
    · right; simp only [List.mem_singleton] at h; rw [h]
  · rcases List.mem_append.mp h with h | h
    · exact Or.inl h
    · right; simp only [List.mem_singleton] at h; rw [h]
  · exact Or.inl h

/-- Every violation produced by rules 1-4 carries one of the four
non-color categories. -/
theorem preColorState_category (std : ContentStandards) (md : VideoMetadata) :
    ∀ v ∈ (preColorState std md).violations,
      v.category = ViolationCategory.VideoCodec ∨
      v.category = ViolationCategory.Resolution ∨
      v.category = ViolationCategory.Container ∨
      v.category = ViolationCategory.AudioCodec := by
  intro v hv
  unfold preColorState at hv
  rcases mem_violations_checkAudioCodec _ _ _ _ hv with hv | hc
  · rcases mem_violations_checkContainer _ _ _ _ hv with hv | hc
    · rcases mem_violations_checkResolution _ _ _ _ hv with hv | hc
      · rcases mem_violations_checkVideoCodec _ _ _ _ hv with hv | hc
        · exact absurd hv (List.not_mem_nil v)
        · exact Or.inl hc
      · exact Or.inr (Or.inl hc)
    · exact Or.inr (Or.inr (Or.inl hc))
  · exact Or.inr (Or.inr (Or.inr hc))

/-- Every violation of a full analysis carries one of the five categories
the engine can emit. -/
theorem analyze_category (std : ContentStandards) (md : VideoMetadata) :
    ∀ v ∈ (analyze_compliance std md).violations,
      v.category = ViolationCategory.VideoCodec ∨
      v.category = ViolationCategory.Resolution ∨
      v.category = ViolationCategory.Container ∨
      v.category = ViolationCategory.AudioCodec ∨
      v.category = ViolationCategory.HDR := by
  intro v hv
  have hv : v ∈ (checkColorSpace std md (preColorState std md)).violations := hv
  rcases mem_violations_checkColorSpace _ _ _ _ hv with hv | hc
  · rcases preColorState_category std md v hv with h | h | h | h
    · exact Or.inl h
    · exact Or.inr (Or.inl h)
    · exact Or.inr (Or.inr (Or.inl h))
    · exact Or.inr (Or.inr (Or.inr (Or.inl h)))
  · exact Or.inr (Or.inr (Or.inr (Or.inr hc)))

/-! ## Claim theorems -/

/-- C1: for every catalog and metadata, the compliance score of
`analyze_compliance` satisfies `0 <= score <= 100`: it starts at 100 and
every rule deduction is a saturating subtraction, so no combination of
violations drives it below 0 or above 100. -/
theorem c1_score_bounds (std : ContentStandards) (md : VideoMetadata) :
    0 ≤ (analyze_compliance std md).score ∧
      (analyze_compliance std md).score ≤ 100 := by
  refine ⟨Nat.zero_le _, ?_⟩
  have h : (analyze_compliance std md).score =
      (checkColorSpace std md (preColorState std md)).score := rfl
  rw [h]
  refine le_trans (checkColorSpace_score_le _ _ _) ?_
  unfold preColorState
  refine le_trans (checkAudioCodec_score_le _ _ _) ?_
  refine le_trans (checkContainer_score_le _ _ _) ?_
  refine le_trans (checkResolution_score_le _ _ _) ?_
  exact checkVideoCodec_score_le _ _ _

/-- `matches!(severity, Info)` agrees with propositional equality. -/
theorem isInfo_iff (v : ComplianceViolation) :
    isInfo v = true ↔ v.severity = ViolationSeverity.Info := by
  unfold isInfo
  cases h : v.severity <;> simp

/-- C2: `is_compliant` holds iff every violation of the result has
severity `Info`; in particular it holds when the violation list is empty,
and any `Critical` or `Warning` violation forces it false. -/
theorem c2_is_compliant_iff (std : ContentStandards) (md : VideoMetadata) :
    ((analyze_compliance std md).is_compliant = true ↔
      ∀ v ∈ (analyze_compliance std md).violations,
        v.severity = ViolationSeverity.Info) ∧
    ((analyze_compliance std md).violations = [] →
      (analyze_compliance std md).is_compliant = true) ∧
    (∀ v ∈ (analyze_compliance std md).violations,
      (v.severity = ViolationSeverity.Critical ∨
       v.severity = ViolationSeverity.Warning) →
        (analyze_compliance std md).is_compliant = false) := by
  have hic : (analyze_compliance std md).is_compliant =
      ((analyze_compliance std md).violations).all isInfo := rfl
  have hiff : (analyze_compliance std md).is_compliant = true ↔
      ∀ v ∈ (analyze_compliance std md).violations,
        v.severity = ViolationSeverity.Info := by
    rw [hic, List.all_eq_true]
    constructor
    · intro h v hv
      exact (isInfo_iff v).mp (h v hv)
    · intro h v hv
      exact (isInfo_iff v).mpr (h v hv)
  refine ⟨hiff, ?_, ?_⟩
  · intro hnil
    apply hiff.mpr
    intro v hv
    rw [hnil] at hv
    exact absurd hv (List.not_mem_nil v)
  · intro v hv hsev
    cases hb : (analyze_compliance std md).is_compliant
    · rfl
    · have := hiff.mp hb v hv
      rcases hsev with h | h <;> rw [h] at this <;> exact absurd this (by simp)

/-- C8: the engine only ever emits violations in the categories
`VideoCodec`, `Resolution`, `Container`, `AudioCodec`, `HDR`; in
particular it never emits a `ColorSpace`-category violation. -/
theorem c8_emitted_categories (std : ContentStandards) (md : VideoMetadata) :
    (analyze_compliance std md).violations.all (fun v =>
      decide (v.category = ViolationCategory.VideoCodec ∨
              v.category = ViolationCategory.Resolution ∨
              v.category = ViolationCategory.Container ∨
              v.category = ViolationCategory.AudioCodec ∨
              v.category = ViolationCategory.HDR)) = true ∧
    (analyze_compliance std md).violations.all (fun v =>
      decide (¬ v.category = ViolationCategory.ColorSpace)) = true := by
  constructor
  · rw [List.all_eq_true]
    intro v hv
    exact decide_eq_true (analyze_category std md v hv)
  · rw [List.all_eq_true]
    intro v hv
    apply decide_eq_true
    rcases analyze_category std md v hv with h | h | h | h | h <;>
      rw [h] <;> intro hc <;> exact absurd hc (by simp)

/-- C9: the classifier cascade never returns `ContentType.Unknown`: every
fall-through ends in the `ScreenCapture` default. -/
theorem c9_never_unknown (md : VideoMetadata) (file_name : String) :
    (detect_content_type md file_name == ContentType.Unknown) = false := by
  simp only [detect_content_type]
  repeat' split
  all_goals rfl

/-- C3: when the color space matches both an HDR-restriction term and an
unsupported-color-space term, the analysis emits exactly one HDR-category
violation — the Critical one of the HDR-restriction branch — and the
color stage deducts exactly 30 (never additionally the 25 of the
unsupported-color-space branch, whose scan runs only when the HDR scan
found no match). -/
theorem c3_hdr_short_circuit (std : ContentStandards) (md : VideoMetadata)
    (h1 : ∃ t ∈ std.quality.hdr_restrictions,
      colorMatch md.color_space t = true)
    (_h2 : ∃ t ∈ std.quality.unsupported_color_spaces,
      colorMatch md.color_space t = true) :
    ((analyze_compliance std md).violations.filter (fun v =>
        decide (v.category = ViolationCategory.HDR))).length = 1 ∧
    (∀ v ∈ (analyze_compliance std md).violations,
      v.category = ViolationCategory.HDR →
        v.severity = ViolationSeverity.Critical ∧
        v.description = "HDR content not supported by delivery pipeline") ∧
    (analyze_compliance std md).score = (preColorState std md).score - 30 := by
  have hfind : (std.quality.hdr_restrictions.find?
      (fun t => colorMatch md.color_space t)).isSome = true :=
    List.find?_isSome.mpr h1
  obtain ⟨u, hu⟩ := Option.isSome_iff_exists.mp hfind
  have hcs : checkColorSpace std md (preColorState std md) =
      { violations := (preColorState std md).violations ++
          [⟨ViolationSeverity.Critical, ViolationCategory.HDR,
            "HDR content not supported by delivery pipeline", md.color_space,
            "Rec. 709 (SDR)"⟩]
        recommendations := (preColorState std md).recommendations ++
          ["Convert to SDR (Rec. 709) color space"]
        score := (preColorState std md).score - 30 } := by
    unfold checkColorSpace
    rw [hu]
  have hviol : (analyze_compliance std md).violations =
      (preColorState std md).violations ++
        [⟨ViolationSeverity.Critical, ViolationCategory.HDR,
          "HDR content not supported by delivery pipeline", md.color_space,
          "Rec. 709 (SDR)"⟩] := by
    have h : (analyze_compliance std md).violations =
        (checkColorSpace std md (preColorState std md)).violations := rfl
    rw [h, hcs]
  have hscore : (analyze_compliance std md).score =
      (preColorState std md).score - 30 := by
    have h : (analyze_compliance std md).score =
        (checkColorSpace std md (preColorState std md)).score := rfl
    rw [h, hcs]
  refine ⟨?_, ?_, hscore⟩
  · rw [hviol, List.filter_append]
    have hnil : (preColorState std md).violations.filter (fun v =>
        decide (v.category = ViolationCategory.HDR)) = [] := by
      rw [List.filter_eq_nil_iff]
      intro v hv
      rcases preColorState_category std md v hv with h | h | h | h <;>
        simp [h]
    rw [hnil]
    rfl
  · intro v hv hcat
    rw [hviol] at hv
    rcases List.mem_append.mp hv with hv | hv
    · rcases preColorState_category std md v hv with h | h | h | h <;>
        rw [h] at hcat <;> exact absurd hcat (by decide)
    · simp only [List.mem_singleton] at hv
      rw [hv]
      exact ⟨rfl, rfl⟩

/-- C3 witness: the counter-claim hypotheses are satisfiable — at the
default catalog with color space `"hdr10 bt2020"` (matching both `hdr10`
and `bt2020`) the conclusion holds concretely. -/
theorem c3_hdr_short_circuit_witness :
    ((analyze_compliance defaultStandards hdrBothMd).violations.filter (fun v =>
        decide (v.category = ViolationCategory.HDR))).length = 1 ∧
    (∀ v ∈ (analyze_compliance defaultStandards hdrBothMd).violations,
      v.category = ViolationCategory.HDR →
        v.severity = ViolationSeverity.Critical ∧
        v.description = "HDR content not supported by delivery pipeline") ∧
    (analyze_compliance defaultStandards hdrBothMd).score =
      (preColorState defaultStandards hdrBothMd).score - 30 :=
  c3_hdr_short_circuit defaultStandards hdrBothMd (by decide) (by decide)

/-- C4 counterexample: the claim's rule 6 ("resolution exactly
1920x1080") does not match the source, which tests by substring. On a
resolution of `"11920x1080"` (fps 25, keyword-free name) the source
classifies LiveAction while the claimed cascade yields the ScreenCapture
default, so the claimed equality of classifier and cascade fails. -/
theorem c4_cascade_counterexample :
    detect_content_type cexMd "video.mp4" = ContentType.LiveAction ∧
    specClassifyCascade cexMd "video.mp4" = ContentType.ScreenCapture ∧
    detect_content_type cexMd "video.mp4" ≠ specClassifyCascade cexMd "video.mp4" := by
  refine ⟨by decide, by decide, by decide⟩

/-- C4 amended: the classifier equals the 7-rule ordered cascade with
rule 6 amended to substring containment of `"1920x1080"` (instead of
exact equality); the filename-priority example — a name containing
`"screen_recording"` at fps 60 — classifies ScreenCapture, not
LiveAction. -/
theorem c4_cascade_amended :
    (∀ (md : VideoMetadata) (file_name : String),
      detect_content_type md file_name = specClassifyCascadeAmended md file_name) ∧
    detect_content_type screenRec60Md "screen_recording.mp4" =
      ContentType.ScreenCapture := by
  constructor
  · intro md file_name
    simp only [detect_content_type, specClassifyCascadeAmended]
    split_ifs <;>
      first
        | rfl
        | simp_all [Bool.and_eq_true, decide_eq_true_eq, ge_iff_le]
  · decide

/-- The re-encode condition of `generate_optimized_video_fixes` as an
existential over the violation list. -/
theorem any_isVideoFixCat_iff (r : ComplianceResult) :
    r.violations.any isVideoFixCat = true ↔
      ∃ v ∈ r.violations,
        v.category = ViolationCategory.VideoCodec ∨
        v.category = ViolationCategory.Resolution ∨
        v.category = ViolationCategory.ColorSpace ∨
        v.category = ViolationCategory.HDR := by
  simp [List.any_eq_true, isVideoFixCat]

/-- The re-encode condition of `generate_video_fixes` (three separate
scans ORed together) covers exactly the same violations. -/
theorem gvf_cond_iff (r : ComplianceResult) :
    (r.violations.any (fun v => decide (v.category = ViolationCategory.VideoCodec)) ||
     r.violations.any (fun v => decide (v.category = ViolationCategory.Resolution)) ||
     r.violations.any (fun v => decide (v.category = ViolationCategory.ColorSpace ∨
                                        v.category = ViolationCategory.HDR))) = true ↔
      ∃ v ∈ r.violations,
        v.category = ViolationCategory.VideoCodec ∨
        v.category = ViolationCategory.Resolution ∨
        v.category = ViolationCategory.ColorSpace ∨
        v.category = ViolationCategory.HDR := by
  simp only [Bool.or_eq_true, List.any_eq_true, decide_eq_true_eq]
  constructor
  · rintro ((⟨v, hv, h⟩ | ⟨v, hv, h⟩) | ⟨v, hv, h | h⟩)
    · exact ⟨v, hv, Or.inl h⟩
    · exact ⟨v, hv, Or.inr (Or.inl h)⟩
    · exact ⟨v, hv, Or.inr (Or.inr (Or.inl h))⟩
    · exact ⟨v, hv, Or.inr (Or.inr (Or.inr h))⟩
  · rintro ⟨v, hv, h | h | h | h⟩
    · exact Or.inl (Or.inl ⟨v, hv, h⟩)
    · exact Or.inl (Or.inr ⟨v, hv, h⟩)
    · exact Or.inr ⟨v, hv, Or.inl h⟩
    · exact Or.inr ⟨v, hv, Or.inr h⟩

/-- C5: both video-fix generators demand a re-encode with the H.264
encoder exactly when some violation has category VideoCodec, Resolution,
ColorSpace or HDR; with no such violation the video arguments are
exactly stream-copy. -/
theorem c5_video_reencode_iff (r : ComplianceResult) (ct : ContentType) :
    ((∃ v ∈ r.violations,
        v.category = ViolationCategory.VideoCodec ∨
        v.category = ViolationCategory.Resolution ∨
        v.category = ViolationCategory.ColorSpace ∨
        v.category = ViolationCategory.HDR) →
      (generate_optimized_video_fixes r ct).take 2 = ["-c:v", "h264_nvenc"] ∧
      (generate_video_fixes r).take 2 = ["-c:v", "h264_nvenc"]) ∧
    ((¬ ∃ v ∈ r.violations,
        v.category = ViolationCategory.VideoCodec ∨
        v.category = ViolationCategory.Resolution ∨
        v.category = ViolationCategory.ColorSpace ∨
        v.category = ViolationCategory.HDR) →
      generate_optimized_video_fixes r ct = ["-c:v", "copy"] ∧
      generate_video_fixes r = ["-c:v", "copy"]) := by
  constructor
  · intro h
    have h1 : r.violations.any isVideoFixCat = true :=
      (any_isVideoFixCat_iff r).mpr h
    have h2 := (gvf_cond_iff r).mpr h
    constructor
    · simp only [generate_optimized_video_fixes, h1, if_true]
      simp [List.take]
    · simp only [generate_video_fixes, h2, if_true]
      simp [List.take]
  · intro h
    have h1 : r.violations.any isVideoFixCat = false := by
      rcases Bool.eq_false_or_eq_true (r.violations.any isVideoFixCat) with hb | hb
      · exact absurd ((any_isVideoFixCat_iff r).mp hb) h
      · exact hb
    have h2 : (r.violations.any (fun v => decide (v.category = ViolationCategory.VideoCodec)) ||
        r.violations.any (fun v => decide (v.category = ViolationCategory.Resolution)) ||
        r.violations.any (fun v => decide (v.category = ViolationCategory.ColorSpace ∨
                                           v.category = ViolationCategory.HDR))) = false := by
      rcases Bool.eq_false_or_eq_true (r.violations.any (fun v => decide (v.category = ViolationCategory.VideoCodec)) ||
          r.violations.any (fun v => decide (v.category = ViolationCategory.Resolution)) ||
          r.violations.any (fun v => decide (v.category = ViolationCategory.ColorSpace ∨
                                             v.category = ViolationCategory.HDR))) with hb | hb
      · exact absurd ((gvf_cond_iff r).mp hb) h
      · exact hb
    constructor
    · simp only [generate_optimized_video_fixes, h1, Bool.false_eq_true, if_false]
    · simp only [generate_video_fixes, h2, Bool.false_eq_true, if_false]

/-- A result whose single violation (Info, AudioCodec) demands no video
re-encode. -/
def audioOnlyResult : ComplianceResult :=
  ⟨false, 95,
   [⟨ViolationSeverity.Info, ViolationCategory.AudioCodec,
     "Audio codec is acceptable but not preferred", "aac",
     "Preferred: pcm, alac"⟩], []⟩

/-- A result with a Critical VideoCodec violation. -/
def codecViolResult : ComplianceResult :=
  ⟨false, 80,
   [⟨ViolationSeverity.Critical, ViolationCategory.VideoCodec,
     "Video codec not in preferred list", "mpeg4", "h264, libx264"⟩],
   ["Convert to H.264 codec for optimal compatibility"]⟩

/-- C5 witness: both hypotheses are satisfiable, at a concrete result
with a VideoCodec violation (re-encode) and a concrete result with only
an AudioCodec violation (stream-copy). -/
theorem c5_video_reencode_iff_witness :
    ((generate_optimized_video_fixes codecViolResult ContentType.LiveAction).take 2 =
        ["-c:v", "h264_nvenc"] ∧
     (generate_video_fixes codecViolResult).take 2 = ["-c:v", "h264_nvenc"]) ∧
    (generate_optimized_video_fixes audioOnlyResult ContentType.Unknown =
        ["-c:v", "copy"] ∧
     generate_video_fixes audioOnlyResult = ["-c:v", "copy"]) :=
  ⟨(c5_video_reencode_iff codecViolResult ContentType.LiveAction).1 (by decide),
   (c5_video_reencode_iff audioOnlyResult ContentType.Unknown).2 (by decide)⟩

/-! ## C6: the aggregator's running mean -/

/-- A compliant result scoring 100. -/
def score100Result : ComplianceResult := ⟨true, 100, [], []⟩

/-- A result scoring 60. -/
def score60Result : ComplianceResult := ⟨false, 60, [], []⟩

/-- A result scoring 70. -/
def score70Result : ComplianceResult := ⟨false, 70, [], []⟩

/-- Summary after adding the score-100 result. -/
def sumAfter1 : ComplianceSummary :=
  ComplianceSummary.new.add_result score100Result "a.mp4"

/-- Summary after further adding the score-60 result. -/
def sumAfter2 : ComplianceSummary :=
  sumAfter1.add_result score60Result "b.mp4"

/-- Summary after further adding the score-70 result. -/
def sumAfter3 : ComplianceSummary :=
  sumAfter2.add_result score70Result "c.mp4"

/-- C6: `add_result` updates the running mean incrementally by
`mean' = (mean*(n-1) + newScore)/n` with `n` the count after the
addition (no stored sum); adding scores 100 then 60 yields mean 80, and
then 70 yields `(80*2+70)/3`. -/
theorem c6_running_mean :
    (∀ (s : ComplianceSummary) (r : ComplianceResult) (fn : String),
      (s.add_result r fn).total_files = s.total_files + 1 ∧
      (s.add_result r fn).average_score =
        (s.average_score * (s.total_files : Rat) + (r.score : Rat)) /
          ((s.total_files : Rat) + 1)) ∧
    sumAfter2.average_score = 80 ∧
    sumAfter3.average_score = (80 * 2 + 70) / 3 := by
  refine ⟨?_, ?_, ?_⟩
  · intro s r fn
    refine ⟨rfl, ?_⟩
    simp only [ComplianceSummary.add_result, Nat.add_sub_cancel]
    push_cast
    ring
  · simp only [sumAfter2, sumAfter1, ComplianceSummary.add_result,
      ComplianceSummary.new, score100Result, score60Result,
      Nat.add_sub_cancel]
    norm_num
  · simp only [sumAfter3, sumAfter2, sumAfter1, ComplianceSummary.add_result,
      ComplianceSummary.new, score100Result, score60Result, score70Result,
      Nat.add_sub_cancel]
    norm_num

/-! ## C7: duration formatting truncates -/

/-- On nonnegative rationals, truncation toward zero is the floor. -/
theorem ratTrunc_nonneg_eq_floor (q : Rat) (h : 0 ≤ q) : ratTrunc q = ⌊q⌋ := by
  rw [Rat.floor_def, ratTrunc,
    Int.tdiv_eq_ediv (Rat.num_nonneg.mpr h) (by positivity)]

/-- C7: duration formatting truncates rather than rounds:
`format_duration 59.999 = "00:00:59.99"`, never `"00:01:00.00"`. -/
theorem c7_format_duration_truncates :
    format_duration (59.999 : Rat) = "00:00:59.99" ∧
    (format_duration (59.999 : Rat) == "00:01:00.00") = false := by
  have h0 : (59.999 : Rat) = 59999 / 1000 := by norm_num
  have hq : ((59999 : Rat) / 1000) * 100 = 59999 / 10 := by norm_num
  have hfl : ⌊(59999 : Rat) / 10⌋ = 5999 := by
    rw [Int.floor_eq_iff]
    constructor <;> norm_num
  have htr : ratTrunc ((59.999 : Rat) * 100) = 5999 := by
    rw [h0, hq, ratTrunc_nonneg_eq_floor _ (by norm_num), hfl]
  have hmain : format_duration (59.999 : Rat) = "00:00:59.99" := by
    simp only [format_duration]
    rw [htr]
    rfl
  exact ⟨hmain, by rw [hmain]; decide⟩


/-! ## C10: the batch tracker's count invariant -/

/-- C10: `processed_files = |fixed| + |skipped| + |failed|` holds at
`BatchProcessor::new` and is preserved by every `process_file_result`
call, which increments the count by one and appends to exactly one of
the three lists. -/
theorem c10_batch_invariant :
    (∀ n : Nat,
      (BatchProcessor.new n).processed_files =
        (BatchProcessor.new n).fixed_files.length +
        (BatchProcessor.new n).skipped_files.length +
        (BatchProcessor.new n).failed_files.length) ∧
    (∀ (bp : BatchProcessor) (path : String)
        (result : Except VideoError (Option String)),
      bp.processed_files =
          bp.fixed_files.length + bp.skipped_files.length +
            bp.failed_files.length →
        (bp.process_file_result path result).processed_files =
          (bp.process_file_result path result).fixed_files.length +
          (bp.process_file_result path result).skipped_files.length +
          (bp.process_file_result path result).failed_files.length) := by
  constructor
  · intro n
    rfl
  · intro bp path result h
    cases result with
    | error e =>
      simp [BatchProcessor.process_file_result, List.length_append, h]
      omega
    | ok o =>
      cases o with
      | none =>
        simp [BatchProcessor.process_file_result, List.length_append, h]
        omega
      | some fixed_path =>
        simp [BatchProcessor.process_file_result, List.length_append, h]
        omega

/-- C10 witness: the invariant instantiated at the initial tracker for
one file and a concrete skipped-file call. -/
theorem c10_batch_invariant_witness :
    ((BatchProcessor.new 1).process_file_result "a.mp4"
        (Except.ok none)).processed_files =
      ((BatchProcessor.new 1).process_file_result "a.mp4"
        (Except.ok none)).fixed_files.length +
      ((BatchProcessor.new 1).process_file_result "a.mp4"
        (Except.ok none)).skipped_files.length +
      ((BatchProcessor.new 1).process_file_result "a.mp4"
        (Except.ok none)).failed_files.length :=
  c10_batch_invariant.2 (BatchProcessor.new 1) "a.mp4" (Except.ok none) (by rfl)

/-- C2 witness: the compliance equivalence instantiated at the default
catalog — a fully compliant sample is compliant, and the HDR sample
(whose violation is Critical) is non-compliant. -/
theorem c2_is_compliant_iff_witness :
    (analyze_compliance defaultStandards goodMd).is_compliant = true ∧
    (analyze_compliance defaultStandards hdrBothMd).is_compliant = false :=
  ⟨(c2_is_compliant_iff defaultStandards goodMd).1.mpr (by decide),
   (c2_is_compliant_iff defaultStandards hdrBothMd).2.2
     ⟨ViolationSeverity.Critical, ViolationCategory.HDR,
      "HDR content not supported by delivery pipeline", "hdr10 bt2020",
      "Rec. 709 (SDR)"⟩ (by decide) (Or.inl rfl)⟩
